import Mathlib

/-!
Shallow embedding of `src/elevenlabs-bridge/server.js` (the ElevenLabs
Zoom Bridge server): session registry, outbound call orchestration
(`POST /initiate-call`), the TwiML call-instruction responder
(`POST /call/twiml`), the media-stream WebSocket upgrade
(`GET /media-stream`) and the per-call Media Bridge handlers.

Conventions of the embedding:
- JavaScript string truthiness is modelled by comparing with `""`
  (a missing optional string field and an empty one are both falsy,
  so both are modelled as `""` where the code only tests truthiness).
- A value obtained through an optional chain (`a?.b`) is modelled as
  `Option`: `none` when the link or the field is absent.
- `JSON.parse` failure on an inbound WebSocket frame is modelled by
  handing the handler `none` instead of a parsed event: the `catch`
  block of the source becomes the `none` branch.
- Side effects (socket sends, socket closes, log lines, store writes,
  timers, the Twilio REST call) are reified as effect lists returned
  by the handler functions, in program order.
-/

namespace ZoomBridge

/-- Session record stored in `sessionStore`
(`sessionStore.set(sessionId, {...})`, server.js lines 61-67). -/
structure SessionRecord where
  twilioAccountSid : String
  twilioAuthToken : String
  elevenLabsApiKey : String
  elevenLabsAgentId : String
  serverUrl : String
deriving DecidableEq, Repr

/-- Model of JavaScript `String.prototype.startsWith`, computed on the
character list so that it evaluates inside the kernel. -/
def strStartsWith (s pre : String) : Bool :=
  pre.data.isPrefixOf s.data

/-- Model of taking the suffix of a string after its first `n` characters,
computed on the character list so that it evaluates inside the kernel. -/
def strDrop (s : String) (n : Nat) : String :=
  ⟨s.data.drop n⟩

/-- Normalization of the request's `serverUrl` (server.js lines 50-53):
`if (serverUrl && !serverUrl.startsWith('http')) serverUrl = "https://" + serverUrl`. -/
def normalizeServerUrl (serverUrl : String) : String :=
  if serverUrl ≠ "" ∧ strStartsWith serverUrl "http" = false then
    "https://" ++ serverUrl
  else
    serverUrl

/-- Helper for `hasExplicitScheme`: does the character list contain the
three-character separator `://` anywhere. -/
def hasSchemeSep : List Char → Bool
  | ':' :: '/' :: '/' :: _ => true
  | _ :: cs => hasSchemeSep cs
  | [] => false

/-- Spec-side predicate, formalising the claim wording "carries an explicit
scheme": the address contains a `://` scheme separator. It is used only to
state the claim about normalization, never by the embedded code. -/
def hasExplicitScheme (s : String) : Bool :=
  hasSchemeSep s.data

/-- DTMF send-sequence construction (server.js lines 77-86):
start from `"wwww"`; if a meeting id is given append it plus `"#"`, then
either `"wwww" + passcode + "#"` or `"wwww#"` when no passcode is given.
JS truthiness: a missing or empty `meetingId`/`passcode` is falsy,
modelled as `""`. -/
def sendDigits (meetingId passcode : String) : String :=
  let s := "wwww"
  if meetingId ≠ "" then
    let s := s ++ meetingId ++ "#"
    if passcode ≠ "" then
      s ++ "wwww" ++ passcode ++ "#"
    else
      s ++ "wwww#"
  else
    s

/-- Request body of `POST /initiate-call` (server.js lines 39-50).
Every field is a string; `""` models a missing or empty field
(the validation only tests JS truthiness). -/
structure InitiateRequest where
  twilioAccountSid : String
  twilioAuthToken : String
  twilioPhoneNumber : String
  elevenLabsApiKey : String
  elevenLabsAgentId : String
  zoomDialIn : String
  serverUrl : String
  meetingId : String
  passcode : String
deriving DecidableEq, Repr

/-- Validation of `POST /initiate-call` (server.js line 55): every required
field must be truthy, `serverUrl` after normalization. `meetingId` and
`passcode` are optional. -/
def requiredPresent (r : InitiateRequest) : Bool :=
  normalizeServerUrl r.serverUrl ≠ "" && r.twilioAccountSid ≠ "" &&
  r.twilioAuthToken ≠ "" && r.twilioPhoneNumber ≠ "" &&
  r.elevenLabsApiKey ≠ "" && r.elevenLabsAgentId ≠ "" && r.zoomDialIn ≠ ""

/-- Observable side effects of the `POST /initiate-call` handler, in
program order: the `sessionStore.set`, the deletion timer
(`setTimeout(..., 3600000)`), and the Twilio `calls.create` request with
its `url`, `to`, `from` and `sendDigits` arguments. -/
inductive InitEffect
  | storeSession (sessionId : String) (record : SessionRecord)
  | scheduleDelete (sessionId : String) (delayMs : Nat)
  | twilioCreate (url toNumber fromNumber digits : String)
deriving DecidableEq, Repr

/-- Response of the `POST /initiate-call` handler: 400 on validation
failure, 200 `{success: true, callSid, sessionId}` on success, 500 with
the provider's message when the Twilio call throws. -/
inductive InitResult
  | badRequest (error : String)
  | success (callSid sessionId : String)
  | upstreamError (details : String)
deriving DecidableEq, Repr

/-- The `POST /initiate-call` handler (server.js lines 38-106).
`sessionId` stands for the fresh `uuidv4()` and `twilioResult` for the
outcome of the provider call (`Except.ok callSid` on success, the error
message otherwise); both are produced by the environment. -/
def initiateCall (r : InitiateRequest) (sessionId : String)
    (twilioResult : Except String String) : List InitEffect × InitResult :=
  let serverUrl := normalizeServerUrl r.serverUrl
  if requiredPresent r then
    let record : SessionRecord :=
      { twilioAccountSid := r.twilioAccountSid
        twilioAuthToken := r.twilioAuthToken
        elevenLabsApiKey := r.elevenLabsApiKey
        elevenLabsAgentId := r.elevenLabsAgentId
        serverUrl := serverUrl }
    let effects : List InitEffect :=
      [ .storeSession sessionId record,
        .scheduleDelete sessionId 3600000,
        .twilioCreate (serverUrl ++ "/call/twiml?sessionId=" ++ sessionId)
          r.zoomDialIn r.twilioPhoneNumber (sendDigits r.meetingId r.passcode) ]
    match twilioResult with
    | .ok callSid => (effects, .success callSid sessionId)
    | .error e => (effects, .upstreamError e)
  else
    ([], .badRequest "All fields (except Meeting ID/Passcode) are required")

/-- The in-memory `sessionStore` (a `Map<sessionId, record>`), modelled as
an association list. -/
abbrev Registry := List (String × SessionRecord)

/-- `sessionStore.get(sessionId)`. -/
def registryGet (store : Registry) (sessionId : String) : Option SessionRecord :=
  List.lookup sessionId store

/-- `serverUrl.replace(/^https/, 'wss')` (server.js line 159): an anchored
replacement of a leading `"https"` by `"wss"`; a url not starting with
`"https"` is unchanged. -/
def httpsToWss (url : String) : String :=
  if strStartsWith url "https" then "wss" ++ strDrop url 5 else url

/-- Response of the `POST /call/twiml` handler: 404 when the session is
unknown, otherwise the TwiML document whose `<Stream>` url it carries. -/
inductive TwimlResult
  | notFound
  | twiml (streamUrl : String)
deriving DecidableEq, Repr

/-- The `POST /call/twiml` handler (server.js lines 145-164). It only reads
the store, so the returned registry is the input one. -/
def twimlHandler (store : Registry) (sessionId : String) :
    Registry × TwimlResult :=
  match registryGet store sessionId with
  | none => (store, .notFound)
  | some s =>
      (store, .twiml (httpsToWss s.serverUrl ++ "/media-stream?sessionId=" ++ sessionId))

/-- Frame sent to the ElevenLabs socket for inbound Twilio audio
(server.js lines 243-246), serialized as `{"user_audio_chunk": ...}`. -/
structure AgentFrame where
  user_audio_chunk : String
deriving DecidableEq, Repr

/-- Frame sent to the Twilio socket for agent audio (server.js lines
279-286), serialized as
`{"event":"media","streamSid":...,"media":{"payload":...}}`;
`streamSid = none` serializes to JSON `null`. -/
structure TwilioMediaFrame where
  streamSid : Option String
  payload : String
deriving DecidableEq, Repr

/-- Observable side effects of the bridge handlers, in program order. -/
inductive Effect
  | log (msg : String)
  | sendToAgent (frame : AgentFrame)
  | sendToTwilio (frame : TwilioMediaFrame)
  | closeAgent
  | closeTwilio
  | openAgent (url apiKey : String)
deriving DecidableEq, Repr

/-- WebSocket ready states, mirroring the `ws` constants. -/
inductive ReadyState
  | CONNECTING
  | OPEN
  | CLOSING
  | CLOSED
deriving DecidableEq, Repr

/-- Per-bridge mutable state (server.js lines 195-197): the captured
`streamSid` (initially `null`), the `isElevenLabsConnected` flag, plus the
ready states of the two sockets (tracked by the WebSocket runtime and read
by the handlers through `readyState`). -/
structure BridgeState where
  streamSid : Option String
  isElevenLabsConnected : Bool
  elevenLabsReadyState : ReadyState
  twilioReadyState : ReadyState
deriving DecidableEq, Repr

/-- Bridge state right after the media-stream upgrade is accepted:
`streamSid = null`, `isElevenLabsConnected = false`, the agent socket
still connecting, the telephony socket already open. -/
def initialBridgeState : BridgeState :=
  { streamSid := none
    isElevenLabsConnected := false
    elevenLabsReadyState := .CONNECTING
    twilioReadyState := .OPEN }

/-- The `GET /media-stream` upgrade handler (server.js lines 176-205), up
to the point where the per-bridge handlers are installed: unknown session
closes the telephony socket; a found session opens the outbound
ElevenLabs WebSocket with the session's agent credentials. It only reads
the store. -/
def mediaStreamUpgrade (store : Registry) (sessionId : String) :
    Registry × List Effect :=
  match registryGet store sessionId with
  | none => (store, [.closeTwilio])
  | some s =>
      (store,
       [.openAgent
          ("wss://api.elevenlabs.io/v1/convai/conversation?agent_id=" ++ s.elevenLabsAgentId)
          s.elevenLabsApiKey])

/-- Parsed inbound Twilio media-stream event, tagged by its `event` field
(server.js lines 235-256); `other` covers any unrecognized tag, which the
`switch` ignores. -/
inductive TwilioEvent
  | start (streamSid : String)
  | media (payload : String)
  | stop
  | other (event : String)
deriving DecidableEq, Repr

/-- Parsed inbound ElevenLabs event, tagged by its `type` field
(server.js lines 272-295). `audio_base_64` is the optional-chain result
`message.audio_event?.audio_base_64` (`none` when the event or the field
is absent); `event_id` likewise for `message.ping_event?.event_id`. -/
inductive ElevenLabsEvent
  | conversation_initiation_metadata
  | audio (audio_base_64 : Option String)
  | ping (event_id : Option String)
  | other (type : String)
deriving DecidableEq, Repr

/-- Body of the Twilio `message` handler after a successful parse: the
`switch (data.event)` of server.js lines 235-256. -/
def handleTwilioEvent (st : BridgeState) (ev : TwilioEvent) :
    BridgeState × List Effect :=
  match ev with
  | .start sid =>
      ({ st with streamSid := some sid }, [.log ("Stream started: " ++ sid)])
  | .media payload =>
      if st.isElevenLabsConnected = true ∧ st.elevenLabsReadyState = ReadyState.OPEN then
        (st, [.sendToAgent { user_audio_chunk := payload }])
      else
        (st, [])
  | .stop =>
      (st, .log "Stream stopped" ::
        (if st.elevenLabsReadyState = ReadyState.OPEN then [.closeAgent] else []))
  | .other _ => (st, [])

/-- The `connection.socket.on('message')` handler (server.js lines
231-260): `none` models a frame `JSON.parse` throws on, handled by the
`catch` block, which only logs. -/
def onTwilioMessage (st : BridgeState) (parsed : Option TwilioEvent) :
    BridgeState × List Effect :=
  match parsed with
  | none => (st, [.log "Error parsing Twilio message"])
  | some ev => handleTwilioEvent st ev

/-- The `handleElevenLabsMessage` function (server.js lines 271-296):
audio with a truthy `audio_base_64` is wrapped as a `media` frame tagged
with the captured `streamSid`; the ping case checks `event_id` but sends
nothing; the metadata case only logs. -/
def handleElevenLabsMessage (message : ElevenLabsEvent)
    (streamSid : Option String) : List Effect :=
  match message with
  | .conversation_initiation_metadata =>
      [.log "ElevenLabs conversation initiated"]
  | .audio (some b64) =>
      if b64 ≠ "" then
        [.sendToTwilio { streamSid := streamSid, payload := b64 }]
      else
        []
  | .audio none => []
  | .ping _ => []
  | .other _ => []

/-- The `elevenLabsWs.on('message')` handler (server.js lines 212-219):
`none` models a frame `JSON.parse` throws on, handled by the `catch`
block, which only logs. -/
def onElevenLabsMessage (st : BridgeState) (parsed : Option ElevenLabsEvent) :
    BridgeState × List Effect :=
  match parsed with
  | none => (st, [.log "Error parsing ElevenLabs message"])
  | some m => (st, handleElevenLabsMessage m st.streamSid)

/-- The `elevenLabsWs.on('open')` handler (server.js lines 207-210): sets
the connected flag; the socket itself has just transitioned to OPEN. -/
def onElevenLabsOpen (st : BridgeState) : BridgeState × List Effect :=
  ({ st with isElevenLabsConnected := true, elevenLabsReadyState := .OPEN },
   [.log "Connected to ElevenLabs"])

/-- The `elevenLabsWs.on('close')` handler (server.js lines 225-228): it
logs and clears `isElevenLabsConnected`; the agent socket itself has just
transitioned to CLOSED. It does not touch the telephony socket. -/
def onElevenLabsClose (st : BridgeState) : BridgeState × List Effect :=
  ({ st with isElevenLabsConnected := false, elevenLabsReadyState := .CLOSED },
   [.log "ElevenLabs disconnected"])

/-- The `connection.socket.on('close')` handler (server.js lines 262-267):
the telephony socket has just transitioned to CLOSED; if the agent socket
is open it is closed. -/
def onTwilioClose (st : BridgeState) : BridgeState × List Effect :=
  ({ st with twilioReadyState := .CLOSED },
   .log "Twilio media stream disconnected" ::
     (if st.elevenLabsReadyState = ReadyState.OPEN then [.closeAgent] else []))

/-- Timed view of one stored session: `createdAt` is the time of the
`sessionStore.set`, and the one-shot deletion timer
`setTimeout(() => sessionStore.delete(sessionId), 3600000)`
(server.js line 70) fires 3600000 ms later. -/
structure TimedSession where
  createdAt : Nat
  record : SessionRecord
deriving DecidableEq, Repr

/-- Timer delay of the session-deletion timeout (server.js line 70). -/
def SESSION_TTL_MS : Nat := 3600000

/-- Result of `sessionStore.get` on this session's id at absolute time `t`
(milliseconds): present until the deletion timer fires at
`createdAt + 3600000`, absent afterwards. No access renews the timer. -/
def sessionGetAt (s : TimedSession) (t : Nat) : Option SessionRecord :=
  if t < s.createdAt + SESSION_TTL_MS then some s.record else none

/-- Bridge state in which the agent socket is fully open (the `open`
handler has run) and the telephony socket is still open. -/
def openBridgeState : BridgeState :=
  { streamSid := none
    isElevenLabsConnected := true
    elevenLabsReadyState := .OPEN
    twilioReadyState := .OPEN }

/-- Statement of claim C5 for one request: in the effect trace of the
initiate-call handler, the session store write occurs strictly before the
Twilio call-placement request, the reference URL handed to the provider
embeds the same session id as the returned response, and the stored
record holds the supplied credentials and the normalized callback
address. -/
def sessionStoredBeforeCall (r : InitiateRequest) (sid csid : String) : Prop :=
  ∃ (recd : SessionRecord) (i j : Nat) (toNumber fromNumber digits : String),
    i < j ∧
    (initiateCall r sid (Except.ok csid)).1[i]? =
      some (InitEffect.storeSession sid recd) ∧
    (initiateCall r sid (Except.ok csid)).1[j]? =
      some (InitEffect.twilioCreate
        (recd.serverUrl ++ "/call/twiml?sessionId=" ++ sid)
        toNumber fromNumber digits) ∧
    (initiateCall r sid (Except.ok csid)).2 = InitResult.success csid sid ∧
    recd.twilioAccountSid = r.twilioAccountSid ∧
    recd.twilioAuthToken = r.twilioAuthToken ∧
    recd.elevenLabsApiKey = r.elevenLabsApiKey ∧
    recd.elevenLabsAgentId = r.elevenLabsAgentId ∧
    recd.serverUrl = normalizeServerUrl r.serverUrl

end ZoomBridge

namespace ZoomBridge

/-- C2: the DTMF send-sequence built by initiateCall is exactly
`"wwww1234#wwww56#"` for join id `"1234"` and passcode `"56"`,
`"wwww1234#wwww#"` for join id `"1234"` and no passcode, and `"wwww"`
when no join id is given, regardless of the passcode. -/
theorem c2_send_digits :
    sendDigits "1234" "56" = "wwww1234#wwww56#" ∧
    sendDigits "1234" "" = "wwww1234#wwww#" ∧
    ∀ passcode : String, sendDigits "" passcode = "wwww" := by
  refine ⟨by decide, by decide, ?_⟩
  intro passcode
  simp [sendDigits]

/-- C8: a session created at time T is retrievable at T + 59 minutes and
no longer retrievable at T + 61 minutes: the deletion timer set at
creation fires after the fixed 3600000 ms TTL regardless of use. -/
theorem c8_session_ttl :
    ∀ s : TimedSession,
      sessionGetAt s (s.createdAt + 59 * 60000) = some s.record ∧
      sessionGetAt s (s.createdAt + 61 * 60000) = none := by
  intro s
  constructor
  · simp [sessionGetAt, SESSION_TTL_MS]
  · simp [sessionGetAt, SESSION_TTL_MS]

/-- C9 counterexample: the claim "an input already carrying an explicit
scheme is left unchanged" fails at `"wss://zoom.us"`: it carries the
explicit scheme `wss`, yet normalization prepends `"https://"` because
the code only tests `startsWith("http")`. -/
theorem c9_counterexample :
    ¬ (∀ s : String, s ≠ "" →
        (hasExplicitScheme s = true → normalizeServerUrl s = s) ∧
        (hasExplicitScheme s = false →
          normalizeServerUrl s = "https://" ++ s)) := by
  intro h
  have h2 := (h "wss://zoom.us" (by decide)).1 (by decide)
  revert h2
  decide

/-- C9 amended: normalization prepends `"https://"` exactly when the
input does not start with the literal string `"http"`; any nonempty input
starting with `"http"` is left unchanged, and every other nonempty input
(even one already carrying a non-http scheme) gets `"https://"`
prepended. -/
theorem c9_normalization :
    ∀ s : String, s ≠ "" →
      (strStartsWith s "http" = true → normalizeServerUrl s = s) ∧
      (strStartsWith s "http" = false →
        normalizeServerUrl s = "https://" ++ s) := by
  intro s hs
  constructor
  · intro hp
    simp [normalizeServerUrl, hp]
  · intro hp
    simp [normalizeServerUrl, hs, hp]

/-- C9 witness: the amended normalization evaluated at a schemeless
address and at an https address. -/
theorem c9_normalization_witness :
    normalizeServerUrl "myserver.example.org" = "https://myserver.example.org" ∧
    normalizeServerUrl "https://myserver.example.org" = "https://myserver.example.org" :=
  ⟨(c9_normalization "myserver.example.org" (by decide)).2 (by decide),
   (c9_normalization "https://myserver.example.org" (by decide)).1 (by decide)⟩

/-- C1 counterexample: close propagation is not bidirectional. In a state
where both sockets are open, the agent-side close handler emits no close
of the telephony socket — it only logs and clears the connected flag — so
the second half of the claim fails. -/
theorem c1_counterexample :
    ¬ (∀ st : BridgeState,
        (st.elevenLabsReadyState = ReadyState.OPEN →
          Effect.closeAgent ∈ (onTwilioClose st).2) ∧
        (st.twilioReadyState = ReadyState.OPEN →
          Effect.closeTwilio ∈ (onElevenLabsClose st).2)) := by
  intro h
  have h2 := (h openBridgeState).2 rfl
  revert h2
  decide

/-- C1 amended: close propagation is unidirectional. When the telephony
socket closes while the agent socket is open, the agent socket is closed;
when the agent socket closes, the telephony socket is never closed — the
handler only clears the `isElevenLabsConnected` flag. -/
theorem c1_close_propagation :
    ∀ st : BridgeState,
      (st.elevenLabsReadyState = ReadyState.OPEN →
        Effect.closeAgent ∈ (onTwilioClose st).2) ∧
      Effect.closeTwilio ∉ (onElevenLabsClose st).2 ∧
      (onElevenLabsClose st).1.isElevenLabsConnected = false := by
  intro st
  refine ⟨fun h => ?_, ?_, rfl⟩
  · simp [onTwilioClose, h]
  · simp [onElevenLabsClose]

/-- C1 witness: in the fully open state, closing the telephony socket
does emit a close of the agent socket. -/
theorem c1_close_propagation_witness :
    Effect.closeAgent ∈ (onTwilioClose openBridgeState).2 :=
  (c1_close_propagation openBridgeState).1 rfl

/-- C3: an inbound telephony `media` event is silently dropped (no agent
frame, no error, no state change) while the agent socket is not open, and
once the agent socket is open it produces exactly one agent frame
carrying the payload unchanged as `user_audio_chunk`. -/
theorem c3_media_forwarding :
    ∀ (st : BridgeState) (payload : String),
      (¬ (st.isElevenLabsConnected = true ∧
            st.elevenLabsReadyState = ReadyState.OPEN) →
        onTwilioMessage st (some (.media payload)) = (st, [])) ∧
      ((st.isElevenLabsConnected = true ∧
            st.elevenLabsReadyState = ReadyState.OPEN) →
        onTwilioMessage st (some (.media payload)) =
          (st, [Effect.sendToAgent { user_audio_chunk := payload }])) := by
  intro st payload
  constructor
  · intro h
    simp only [onTwilioMessage, handleTwilioEvent, if_neg h]
  · intro h
    simp only [onTwilioMessage, handleTwilioEvent, if_pos h]

/-- C3 witness: a media frame with payload `"abc"` is dropped in the
initial state and forwarded as exactly one agent frame in the open
state. -/
theorem c3_media_forwarding_witness :
    onTwilioMessage initialBridgeState (some (.media "abc")) =
      (initialBridgeState, []) ∧
    onTwilioMessage openBridgeState (some (.media "abc")) =
      (openBridgeState, [Effect.sendToAgent { user_audio_chunk := "abc" }]) :=
  ⟨(c3_media_forwarding initialBridgeState "abc").1 (by decide),
   (c3_media_forwarding openBridgeState "abc").2 (by decide)⟩

/-- C4: an agent `audio` event handled after a telephony `start` event
produces exactly one telephony `media` frame tagged with the captured
stream id and carrying the audio payload unchanged. -/
theorem c4_agent_audio_forwarding :
    ∀ (st : BridgeState) (sid payload : String), payload ≠ "" →
      onElevenLabsMessage (onTwilioMessage st (some (.start sid))).1
          (some (.audio (some payload))) =
        ((onTwilioMessage st (some (.start sid))).1,
         [Effect.sendToTwilio { streamSid := some sid, payload := payload }]) := by
  intro st sid payload h
  simp [onTwilioMessage, handleTwilioEvent, onElevenLabsMessage,
        handleElevenLabsMessage, h]

/-- C4 witness: audio `"xyz"` after `start` with stream id `"S1"` yields
exactly the frame with `streamSid = "S1"` and payload `"xyz"`. -/
theorem c4_agent_audio_forwarding_witness :
    onElevenLabsMessage (onTwilioMessage initialBridgeState (some (.start "S1"))).1
        (some (.audio (some "xyz"))) =
      ((onTwilioMessage initialBridgeState (some (.start "S1"))).1,
       [Effect.sendToTwilio { streamSid := some "S1", payload := "xyz" }]) :=
  c4_agent_audio_forwarding initialBridgeState "S1" "xyz" (by decide)

/-- C5: for every valid initiate-call request, the session is stored
before the provider call is placed, the session id in the reference URL
equals the returned one, and the stored record holds the credentials and
normalized callback address. -/
theorem c5_session_before_call :
    ∀ (r : InitiateRequest) (sid csid : String),
      requiredPresent r = true → sessionStoredBeforeCall r sid csid := by
  intro r sid csid h
  refine ⟨{ twilioAccountSid := r.twilioAccountSid
            twilioAuthToken := r.twilioAuthToken
            elevenLabsApiKey := r.elevenLabsApiKey
            elevenLabsAgentId := r.elevenLabsAgentId
            serverUrl := normalizeServerUrl r.serverUrl },
          0, 2, r.zoomDialIn, r.twilioPhoneNumber,
          sendDigits r.meetingId r.passcode,
          by omega, ?_, ?_, ?_, rfl, rfl, rfl, rfl, rfl⟩
  · simp [initiateCall, h]
  · simp [initiateCall, h]
  · simp [initiateCall, h]

/-- C5 witness: the property evaluated on a concrete valid request. -/
theorem c5_session_before_call_witness :
    sessionStoredBeforeCall
      { twilioAccountSid := "AC1", twilioAuthToken := "tok"
        twilioPhoneNumber := "+15550001111", elevenLabsApiKey := "key"
        elevenLabsAgentId := "agent", zoomDialIn := "+16465588656"
        serverUrl := "srv.example.org", meetingId := "", passcode := "" }
      "sess-1" "CA1" :=
  c5_session_before_call _ "sess-1" "CA1" (by decide)

/-- C6: for a session id absent from the Registry, the TwiML responder
answers 404 and the media-stream upgrade closes the telephony socket; in
both cases the Registry is returned unchanged and no agent connection is
opened. -/
theorem c6_unknown_session_fails_closed :
    ∀ (store : Registry) (sid : String),
      registryGet store sid = none →
      twimlHandler store sid = (store, TwimlResult.notFound) ∧
      mediaStreamUpgrade store sid = (store, [Effect.closeTwilio]) ∧
      ∀ url key : String,
        Effect.openAgent url key ∉ (mediaStreamUpgrade store sid).2 := by
  intro store sid h
  refine ⟨?_, ?_, ?_⟩ <;> simp [twimlHandler, mediaStreamUpgrade, h]

/-- C6 witness: the empty Registry with an unknown session id. -/
theorem c6_unknown_session_fails_closed_witness :
    twimlHandler [] "nope" = ([], TwimlResult.notFound) ∧
    mediaStreamUpgrade [] "nope" = ([], [Effect.closeTwilio]) :=
  ⟨(c6_unknown_session_fails_closed [] "nope" rfl).1,
   (c6_unknown_session_fails_closed [] "nope" rfl).2.1⟩

/-- C7: a malformed (unparseable) frame on either socket is logged and
discarded: the handler returns normally, the bridge state is unchanged,
and the only effect is the log line — no send and no socket close. -/
theorem c7_malformed_frames :
    ∀ st : BridgeState,
      onTwilioMessage st none =
        (st, [Effect.log "Error parsing Twilio message"]) ∧
      onElevenLabsMessage st none =
        (st, [Effect.log "Error parsing ElevenLabs message"]) := by
  intro st
  exact ⟨rfl, rfl⟩

/-- C10: an agent `audio` event with a non-empty payload handled while no
telephony `start` event has been received (captured stream id still null)
still sends exactly one `media` frame to the telephony socket, with
`streamSid` null — the frame is neither dropped nor held back. -/
theorem c10_audio_without_stream_sid :
    ∀ (st : BridgeState) (payload : String),
      st.streamSid = none → payload ≠ "" →
      onElevenLabsMessage st (some (.audio (some payload))) =
        (st, [Effect.sendToTwilio { streamSid := none, payload := payload }]) := by
  intro st payload hs hp
  simp [onElevenLabsMessage, handleElevenLabsMessage, hs, hp]

/-- C10 witness: audio `"xyz"` in the initial bridge state yields the
frame with a null stream id. -/
theorem c10_audio_without_stream_sid_witness :
    onElevenLabsMessage initialBridgeState (some (.audio (some "xyz"))) =
      (initialBridgeState,
       [Effect.sendToTwilio { streamSid := none, payload := "xyz" }]) :=
  c10_audio_without_stream_sid initialBridgeState "xyz" rfl (by decide)

end ZoomBridge
